import Mathlib

/-!
Verification development for the energy-package ROI calculator (src/app.py).

The Python source is shallowly embedded: Python floats are modelled as real
numbers, integer-exponent `**` as monoid powers and fractional-exponent `**`
(`x ** year` with `year = month / 12`) as `Real.rpow`.  Fallible code
(Python exceptions: `ZeroDivisionError`, `AttributeError`) is modelled with
`Except PyError`.  Python objects whose attributes may be absent (because
`__init__` did not set them) are modelled as structures of `Option` fields,
with `getAttr` performing the lookup Python does on `self.<attr>`.

The file is organised as: all definitions (the embedding), then all lemmas
and theorems.
-/

/-- Exceptions the embedded code can raise.  `configurationError` is the
error class the specification's error taxonomy calls for; the source never
raises it, but it is needed to state claims about configuration errors. -/
inductive PyError where
  | attributeError (attrName : String)
  | zeroDivisionError
  | configurationError (msg : String)

/-- Python attribute access `self.<attr>`: returns the value when the
attribute was set, raises `AttributeError` otherwise. -/
def getAttr {α : Type} (field : Option α) (attrName : String) : Except PyError α :=
  match field with
  | some v => Except.ok v
  | none => Except.error (PyError.attributeError attrName)

/-! ## Data classes (src/app.py lines 12-58) -/

/-- `ICEVehicle` dataclass. -/
structure ICEVehicle where
  base_price : ℝ
  fuel_consumption : ℝ
  annual_service : ℝ
  depreciation_rate : ℝ
  insurance : ℝ
  registration : ℝ

/-- `TaxBenefits` dataclass. -/
structure TaxBenefits where
  gst_rate : ℝ
  fbt_rate : ℝ
  business_use_percentage : ℝ
  tax_bracket : ℝ

/-- `EVPackage` dataclass. -/
structure EVPackage where
  model : String
  battery_capacity : ℝ
  range : ℕ
  charging_power : ℝ
  v2g_capable : Bool
  base_price : ℝ
  features : List String
  depreciation_rate : ℝ
  energy_consumption_per_km : ℝ

/-- `BatteryPackage` dataclass. -/
structure BatteryPackage where
  capacity : ℝ
  peak_power : ℝ
  cycles : ℕ
  warranty_years : ℕ
  base_price : ℝ
  features : List String

/-- `SolarPackage` dataclass. -/
structure SolarPackage where
  capacity : ℝ
  panel_count : ℕ
  panel_power : ℕ
  inverter_size : ℝ
  base_price : ℝ
  warranty_years : ℕ
  features : List String

/-! ## AEMOPricing (src/app.py lines 60-74) -/

/-- `AEMOPricing` object state: the `tariff_rates` dict (keys `peak` and
`off_peak`) and the feed-in tariff. -/
structure AEMOPricing where
  peak : ℝ
  off_peak : ℝ
  feed_in_tariff : ℝ

/-- `AEMOPricing.__init__`: peak 0.30, off-peak 0.15, feed-in 0.10. -/
noncomputable def aemoInit : AEMOPricing := ⟨0.30, 0.15, 0.10⟩

/-- `AEMOPricing.calculate_arbitrage_potential` (lines 68-74).  The Python
default `efficiency=0.95` is passed explicitly at each call site. -/
noncomputable def calculate_arbitrage_potential (self : AEMOPricing)
    (battery_capacity : ℝ) (efficiency : ℝ) : ℝ :=
  let daily_cycles : ℝ := 1
  let daily_savings := daily_cycles * battery_capacity * efficiency * (self.peak - self.off_peak)
  let monthly_revenue := daily_savings * 30
  monthly_revenue

/-! ## Configuration dictionaries built in `main()` (lines 693-722) -/

/-- The `installation_costs['solar']` sub-dict. -/
structure SolarInstallCosts where
  base : ℝ
  per_kw : ℝ
  inverter : ℝ

/-- The `installation_costs['battery']` sub-dict. -/
structure BatteryInstallCosts where
  base : ℝ
  wiring : ℝ

/-- The `installation_costs` dict. -/
structure InstallationCosts where
  solar : SolarInstallCosts
  battery : BatteryInstallCosts

/-- The `maintenance_costs['ev']` sub-dict. -/
structure EVMaintCosts where
  annual_service : ℝ
  tires : ℝ
  insurance : ℝ
  registration : ℝ
  battery_degradation : ℝ

/-- The `maintenance_costs['solar']` sub-dict. -/
structure SolarMaintCosts where
  cleaning : ℝ
  inverter_replacement : ℝ
  degradation : ℝ

/-- The `maintenance_costs['battery']` sub-dict. -/
structure BatteryMaintCosts where
  annual_check : ℝ
  degradation : ℝ

/-- The `maintenance_costs` dict. -/
structure MaintenanceCosts where
  ev : EVMaintCosts
  solar : SolarMaintCosts
  battery : BatteryMaintCosts

/-- The `usage_profile` dict (lines 577-582). -/
structure UsageProfile where
  daily_commute : ℝ
  power_bill : ℝ
  fuel_cost : ℝ
  roof_space : ℝ

/-! ## Amortization engine (src/app.py lines 305-323) -/

/-- One row of the amortization schedule (the dict appended at lines 316-322). -/
structure AmortEntry where
  month : ℕ
  interest_payment : ℝ
  principal_payment : ℝ
  remaining_principal : ℝ
  total_payment : ℝ

/-- The `for month in range(1, months + 1)` loop of
`generate_amortization_schedule`, carrying `remaining_principal`. -/
noncomputable def amortAux (monthly_interest_rate monthly_payment : ℝ) :
    ℝ → ℕ → ℕ → List AmortEntry
  | _, _, 0 => []
  | remaining_principal, month, Nat.succ k =>
    let interest_payment := remaining_principal * monthly_interest_rate
    let principal_payment := monthly_payment - interest_payment
    let remaining2 := remaining_principal - principal_payment
    ⟨month, interest_payment, principal_payment, remaining2, monthly_payment⟩ ::
      amortAux monthly_interest_rate monthly_payment remaining2 (month + 1) k

/-- The constant monthly payment computed at line 309. -/
noncomputable def monthly_payment (principal annual_interest_rate : ℝ)
    (loan_term_years : ℕ) : ℝ :=
  let monthly_interest_rate := annual_interest_rate / 12
  let months := loan_term_years * 12
  principal * (monthly_interest_rate * (1 + monthly_interest_rate) ^ months) /
    ((1 + monthly_interest_rate) ^ months - 1)

/-- The schedule produced when the payment formula's denominator is nonzero. -/
noncomputable def amortSchedule (principal annual_interest_rate : ℝ)
    (loan_term_years : ℕ) : List AmortEntry :=
  amortAux (annual_interest_rate / 12)
    (monthly_payment principal annual_interest_rate loan_term_years)
    principal 1 (loan_term_years * 12)

/-- `ROICalculator.generate_amortization_schedule` (lines 305-323).  Python
evaluates `principal * (r * (1+r)**months) / ((1+r)**months - 1)` and raises
`ZeroDivisionError` when the denominator is zero (there is no zero-rate
fallback in the source). -/
noncomputable def generate_amortization_schedule (principal annual_interest_rate : ℝ)
    (loan_term_years : ℕ) : Except PyError (List AmortEntry) :=
  if (1 + annual_interest_rate / 12) ^ (loan_term_years * 12) - 1 = 0 then
    Except.error PyError.zeroDivisionError
  else
    Except.ok (amortSchedule principal annual_interest_rate loan_term_years)

/-- The remaining balance after `k` further periods of the schedule loop,
starting from balance `rem` (proof-side characterisation of the fold). -/
noncomputable def iterBal (r payment : ℝ) : ℝ → ℕ → ℝ
  | rem, 0 => rem
  | rem, Nat.succ k => iterBal r payment (rem - (payment - rem * r)) k

/-! ## Degradation and inflation factors (src/app.py lines 405-407, 446-447)

`year = month / 12` is a Python float, so `(1 - rate) ** year` and
`(1 + rate) ** year` are real powers with real exponents: `Real.rpow`. -/

/-- The degradation retention factor `(1 - rate) ** year` (lines 405-407). -/
noncomputable def retentionFactor (annualDecayRate elapsedYears : ℝ) : ℝ :=
  (1 - annualDecayRate) ^ elapsedYears

/-- The inflated value `base * (1 + rate) ** year` (lines 446-447). -/
noncomputable def inflatedValue (base annualRate elapsedYears : ℝ) : ℝ :=
  base * (1 + annualRate) ^ elapsedYears

/-! ## ROICalculator object state and constructor (src/app.py lines 204-217) -/

/-- `ROICalculator` object state: one optional field per attribute that the
methods read. -/
structure ROICalculator where
  aemo_pricing : Option AEMOPricing
  interest_rate : Option ℝ
  loan_term_years : Option ℕ
  installation_costs : Option InstallationCosts
  maintenance_costs : Option MaintenanceCosts
  solar_rebate_per_kw : Option ℝ
  battery_rebate : Option ℝ
  power_price_inflation : Option ℝ
  fuel_price_inflation : Option ℝ
  ice_vehicle : Option ICEVehicle
  tax_benefits : Option TaxBenefits

/-- The `ICEVehicle` literal constructed inside `__init__` (lines 209-216). -/
noncomputable def iceVehicleDefault : ICEVehicle := ⟨45000, 8.5, 800, 0.15, 1000, 800⟩

/-- The `TaxBenefits()` dataclass defaults (lines 22-26). -/
noncomputable def taxBenefitsDefault : TaxBenefits := ⟨0.10, 0.47, 0.80, 0.37⟩

/-- `ROICalculator.__init__` (lines 204-217): the body assigns only
`self.ice_vehicle` and `self.tax_benefits`; the nine configuration
parameters are never stored on the object. -/
noncomputable def ROICalculator_init (aemo_pricing : AEMOPricing) (interest_rate : ℝ)
    (loan_term_years : ℕ) (installation_costs : InstallationCosts)
    (maintenance_costs : MaintenanceCosts)
    (solar_rebate_per_kw battery_rebate power_price_inflation fuel_price_inflation : ℝ) :
    ROICalculator :=
  ⟨none, none, none, none, none, none, none, none, none,
    some iceVehicleDefault, some taxBenefitsDefault⟩

/-- The fully-attributed object state: what `__init__`'s signature (and every
`self.<attr>` read in the methods) requires it to have produced.  Used to
analyse the simulation loop independently of the initialization bug
documented by claim C2. -/
noncomputable def mkROICalculator (aemo_pricing : AEMOPricing) (interest_rate : ℝ)
    (loan_term_years : ℕ) (installation_costs : InstallationCosts)
    (maintenance_costs : MaintenanceCosts)
    (solar_rebate_per_kw battery_rebate power_price_inflation fuel_price_inflation : ℝ) :
    ROICalculator :=
  ⟨some aemo_pricing, some interest_rate, some loan_term_years, some installation_costs,
    some maintenance_costs, some solar_rebate_per_kw, some battery_rebate,
    some power_price_inflation, some fuel_price_inflation,
    some iceVehicleDefault, some taxBenefitsDefault⟩

/-! ## Installation cost and rebates (src/app.py lines 283-303) -/

/-- `ROICalculator.get_total_rebates` (lines 300-303). -/
noncomputable def ROICalculator.get_total_rebates (self : ROICalculator)
    (solar_capacity battery_capacity : ℝ) : Except PyError ℝ := do
  let srpk ← getAttr self.solar_rebate_per_kw "solar_rebate_per_kw"
  let solar_rebate := solar_capacity * srpk
  let battery_rebate ← getAttr self.battery_rebate "battery_rebate"
  pure (solar_rebate + battery_rebate)

/-- `ROICalculator.calculate_total_installation_cost` (lines 283-298). -/
noncomputable def ROICalculator.calculate_total_installation_cost (self : ROICalculator)
    (solar_capacity battery_capacity : ℝ) : Except PyError ℝ := do
  let ic ← getAttr self.installation_costs "installation_costs"
  let solar_install := ic.solar.base + ic.solar.per_kw * solar_capacity + ic.solar.inverter
  let battery_install := ic.battery.base + ic.battery.wiring
  let total_cost := solar_install + battery_install
  let total_rebates ← self.get_total_rebates solar_capacity battery_capacity
  pure (total_cost - total_rebates)

/-- The value `calculate_total_installation_cost` computes once the
attribute reads succeed. -/
noncomputable def installationCostValue (ic : InstallationCosts) (srpk br : ℝ)
    (solar_capacity battery_capacity : ℝ) : ℝ :=
  ic.solar.base + ic.solar.per_kw * solar_capacity + ic.solar.inverter +
    (ic.battery.base + ic.battery.wiring) - (solar_capacity * srpk + br)

/-! ## MonthlyRecord (the dict appended at src/app.py lines 460-475) -/

/-- The `maintenance` dict (lines 410-422). -/
structure MaintenanceBreakdown where
  ev_maintenance : ℝ
  solar_maintenance : ℝ
  battery_maintenance : ℝ

/-- The `costs` sub-dict of a monthly record (lines 463-469). -/
structure CostBreakdown where
  loan_payment : ℝ
  ev_loan_payment : ℝ
  maintenance : ℝ
  maintenance_breakdown : MaintenanceBreakdown
  ev_charging_cost : ℝ

/-- The `energy_benefits` dict (lines 441-449). -/
structure BenefitBreakdown where
  arbitrage : ℝ
  solar_export : ℝ
  power_savings : ℝ
  fuel_savings : ℝ
  v2g_revenue : ℝ

/-- One element of the `monthly_data` list (lines 460-475). -/
structure MonthlyRecord where
  month : ℕ
  year : ℝ
  costs : CostBreakdown
  benefits : BenefitBreakdown
  net_fuel_savings : ℝ
  battery_health : ℝ
  solar_health : ℝ
  net_position : ℝ

/-! ## The month loop of `calculate_detailed_roi` (src/app.py lines 325-477)

The first `calculate_detailed_roi` definition (lines 238-281) is shadowed by
the second (lines 325-477) because Python keeps only the last definition of
a method; only the second is embedded. -/

/-- The `if month < len(schedule)` payment extraction (lines 383-403):
total, interest and principal payments of the given period, or zeros past
the end of the schedule. -/
noncomputable def paymentInfoAt (sched : List AmortEntry) (month : ℕ) : ℝ × ℝ × ℝ :=
  if h : month < sched.length then
    ((sched.get ⟨month, h⟩).total_payment, (sched.get ⟨month, h⟩).interest_payment,
      (sched.get ⟨month, h⟩).principal_payment)
  else (0, 0, 0)

/-- The pure computation of one month's record (lines 383-475), given the
attribute values already read off `self`. -/
noncomputable def mkRecord (mc : MaintenanceCosts) (aemo : AEMOPricing) (ppi fpi : ℝ)
    (ev : EVPackage) (battery : BatteryPackage) (solar : SolarPackage)
    (usage_profile : UsageProfile) (loan_schedule ev_loan_schedule : List AmortEntry)
    (month : ℕ) : MonthlyRecord :=
  let year : ℝ := (month : ℝ) / 12
  let loan_payment := (paymentInfoAt loan_schedule month).1
  let ev_loan_payment := (paymentInfoAt ev_loan_schedule month).1
  let battery_capacity_factor := retentionFactor mc.battery.degradation year
  let solar_output_factor := retentionFactor mc.solar.degradation year
  let ev_maintenance := mc.ev.annual_service / 12 + mc.ev.tires / (4 * 12) +
    mc.ev.insurance / 12 + mc.ev.registration / 12
  let solar_maintenance := mc.solar.cleaning / 12 + mc.solar.inverter_replacement / (10 * 12)
  let battery_maintenance := mc.battery.annual_check / 12
  let monthly_km_driven := usage_profile.daily_commute * 30
  let monthly_ev_energy_consumption := monthly_km_driven * ev.energy_consumption_per_km
  let solar_ev_charging_percentage : ℝ := 0.5
  let solar_ev_energy_consumption := monthly_ev_energy_consumption * solar_ev_charging_percentage
  let grid_ev_energy_consumption := monthly_ev_energy_consumption * (1 - solar_ev_charging_percentage)
  let solar_ev_charging_cost := solar_ev_energy_consumption * aemo.feed_in_tariff
  let grid_ev_charging_cost := grid_ev_energy_consumption * aemo.off_peak
  let total_ev_charging_cost := solar_ev_charging_cost + grid_ev_charging_cost
  let arbitrage := calculate_arbitrage_potential aemo (battery.capacity * battery_capacity_factor) 0.95
  let solar_export := solar.capacity * solar_output_factor * 4 * 30 * aemo.feed_in_tariff
  let power_savings := inflatedValue (usage_profile.power_bill * 0.8) ppi year
  let fuel_savings := inflatedValue usage_profile.fuel_cost fpi year
  let v2g_revenue := aemo.feed_in_tariff * ev.battery_capacity * 0.1 * 30
  let net_fuel_savings := fuel_savings - total_ev_charging_cost
  let total_benefits := arbitrage + solar_export + power_savings + fuel_savings + v2g_revenue -
    total_ev_charging_cost
  let total_costs := loan_payment + ev_loan_payment +
    (ev_maintenance + solar_maintenance + battery_maintenance)
  let net_position := total_benefits - total_costs
  ⟨month, year,
    ⟨loan_payment, ev_loan_payment,
      ev_maintenance + solar_maintenance + battery_maintenance,
      ⟨ev_maintenance, solar_maintenance, battery_maintenance⟩, total_ev_charging_cost⟩,
    ⟨arbitrage, solar_export, power_savings, fuel_savings, v2g_revenue⟩,
    net_fuel_savings, battery_capacity_factor * 100, solar_output_factor * 100, net_position⟩

/-- The attribute reads performed inside the loop body (lines 406, 434, 446,
447), followed by the pure record computation. -/
noncomputable def roiBody (self : ROICalculator) (ev : EVPackage) (battery : BatteryPackage)
    (solar : SolarPackage) (usage_profile : UsageProfile)
    (loan_schedule ev_loan_schedule : List AmortEntry) (month : ℕ) :
    Except PyError MonthlyRecord := do
  let mc ← getAttr self.maintenance_costs "maintenance_costs"
  let aemo ← getAttr self.aemo_pricing "aemo_pricing"
  let ppi ← getAttr self.power_price_inflation "power_price_inflation"
  let fpi ← getAttr self.fuel_price_inflation "fuel_price_inflation"
  pure (mkRecord mc aemo ppi fpi ev battery solar usage_profile loan_schedule
    ev_loan_schedule month)

/-- The `for month in range(months)` loop (lines 363-475): the replacement
block (lines 367-381) may regenerate the EV loan schedule, the loop-carried
state, before the month's record is computed. -/
noncomputable def roiGo (self : ROICalculator) (ev : EVPackage) (battery : BatteryPackage)
    (solar : SolarPackage) (usage_profile : UsageProfile) (loan_schedule : List AmortEntry)
    (ev_replacement_month : ℕ) :
    ℕ → ℕ → List AmortEntry → Except PyError (List MonthlyRecord)
  | _, 0, _ => Except.ok []
  | month, Nat.succ k, ev_sched => do
    let ev_loan_schedule ←
      if month = ev_replacement_month then do
        let old_ev_value := ev.base_price * (1 - ev.depreciation_rate / 100) ^ (5 : ℕ)
        let trade_in_value := old_ev_value
        let ev_principal := ev.base_price - trade_in_value
        let ir ← getAttr self.interest_rate "interest_rate"
        let lty ← getAttr self.loan_term_years "loan_term_years"
        generate_amortization_schedule ev_principal ir lty
      else pure ev_sched
    let record ← roiBody self ev battery solar usage_profile loan_schedule
      ev_loan_schedule month
    let rest ← roiGo self ev battery solar usage_profile loan_schedule ev_replacement_month
      (month + 1) k ev_loan_schedule
    pure (record :: rest)

/-- `ROICalculator.calculate_detailed_roi` (lines 325-477, the effective
second definition). -/
noncomputable def ROICalculator.calculate_detailed_roi (self : ROICalculator)
    (ev : EVPackage) (battery : BatteryPackage) (solar : SolarPackage)
    (usage_profile : UsageProfile) (years : ℕ) : Except PyError (List MonthlyRecord) := do
  let months := years * 12
  let installation_cost ← self.calculate_total_installation_cost solar.capacity battery.capacity
  let total_principal := battery.base_price + solar.base_price + installation_cost
  let ir ← getAttr self.interest_rate "interest_rate"
  let lty ← getAttr self.loan_term_years "loan_term_years"
  let loan_schedule ← generate_amortization_schedule total_principal ir lty
  let ev_principal := ev.base_price
  let ir2 ← getAttr self.interest_rate "interest_rate"
  let lty2 ← getAttr self.loan_term_years "loan_term_years"
  let ev_loan_schedule ← generate_amortization_schedule ev_principal ir2 lty2
  let ev_replacement_month := 5 * 12
  roiGo self ev battery solar usage_profile loan_schedule ev_replacement_month
    0 months ev_loan_schedule

/-- The EV loan schedule regenerated at the replacement month (lines
367-380): the old EV's depreciated value `base * (1 - rate/100)^5` is taken
as trade-in and the new principal is the (unchanged) base price minus that
trade-in. -/
noncomputable def replacementEvSchedule (ev : EVPackage) (ir : ℝ) (lty : ℕ) :
    List AmortEntry :=
  amortSchedule (ev.base_price - ev.base_price * (1 - ev.depreciation_rate / 100) ^ (5 : ℕ))
    ir lty

/-! ## Waterfall decomposition (`visualize_monthly_breakdown`, lines 479-515) -/

/-- The initial `Amount` column (lines 488-503): six negated cost
components, a placeholder, five benefit components, two placeholders. -/
noncomputable def waterfallInitialAmounts (data : MonthlyRecord) : List ℝ :=
  [-data.costs.loan_payment, -data.costs.ev_loan_payment, -data.costs.ev_charging_cost,
    -data.costs.maintenance_breakdown.ev_maintenance,
    -data.costs.maintenance_breakdown.solar_maintenance,
    -data.costs.maintenance_breakdown.battery_maintenance,
    0,
    data.benefits.arbitrage, data.benefits.solar_export, data.benefits.power_savings,
    data.benefits.fuel_savings, data.benefits.v2g_revenue,
    0, 0]

/-- The `Amount` column after the subtotal updates of lines 507-515:
index 6 becomes the sum of indices 0-5, index 12 the sum of indices 7-11,
and index 13 their sum. -/
noncomputable def waterfallAmounts (data : MonthlyRecord) : List ℝ :=
  let a0 := waterfallInitialAmounts data
  let total_costs := (a0.take 6).sum
  let a1 := a0.set 6 total_costs
  let total_benefits := ((a1.drop 7).take 5).sum
  let a2 := a1.set 12 total_benefits
  let net_position := total_costs + total_benefits
  a2.set 13 net_position

/-! ## Concrete catalog entries and default assumptions (for witnesses)

Catalog values from `EnergyPackages.__init__` (lines 76-169) and the default
values of the input widgets in `main()` (lines 659-690). -/

/-- The `Essential` EV package (Nissan Leaf). -/
noncomputable def ev_Essential : EVPackage :=
  ⟨"Nissan Leaf", 40.0, 270, 6.6, true, 50000 * 0.95,
    ["Vehicle-to-grid ready", "Smart charging"], 15.0, 0.15⟩

/-- The `Starter` battery package. -/
noncomputable def battery_Starter : BatteryPackage :=
  ⟨6.5, 3.3, 5000, 10, 7000 * 0.95, ["Backup power", "Solar integration", "Monitoring"]⟩

/-- The `Starter` solar package. -/
noncomputable def solar_Starter : SolarPackage :=
  ⟨3.3, 10, 330, 3.0, 5000 * 0.95, 10, ["Basic monitoring"]⟩

/-- Default installation-cost inputs of `main()`. -/
noncomputable def default_installation_costs : InstallationCosts :=
  ⟨⟨1000, 600, 2000⟩, ⟨1500, 1000⟩⟩

/-- Default maintenance-cost inputs of `main()` (degradation percentages
already divided by 100, as at lines 711-720). -/
noncomputable def default_maintenance_costs : MaintenanceCosts :=
  ⟨⟨200, 800, 1200, 800, 1.0 / 100⟩, ⟨200, 2000, 0.5 / 100⟩, ⟨150, 1.0 / 100⟩⟩

/-- Default usage-profile inputs of `main()`. -/
noncomputable def default_usage_profile : UsageProfile := ⟨40, 250, 200, 40⟩

/-- A battery package with a negative capacity, used to probe the absence of
input validation. -/
noncomputable def negCapacityBattery : BatteryPackage :=
  ⟨-5, 3.3, 5000, 10, 7000 * 0.95, []⟩

/-! # Lemmas -/

/-! ## Amortization recursion -/

lemma amortAux_succ (r payment rem : ℝ) (m k : ℕ) :
    amortAux r payment rem m (k + 1) =
      ⟨m, rem * r, payment - rem * r, rem - (payment - rem * r), payment⟩ ::
        amortAux r payment (rem - (payment - rem * r)) (m + 1) k := rfl

lemma amortAux_length (r payment : ℝ) :
    ∀ (k : ℕ) (rem : ℝ) (m : ℕ), (amortAux r payment rem m k).length = k := by
  intro k
  induction k with
  | zero => intro rem m; rfl
  | succ k ih =>
    intro rem m
    rw [amortAux_succ, List.length_cons, ih]

lemma amortAux_total_payment (r payment : ℝ) :
    ∀ (k : ℕ) (rem : ℝ) (m : ℕ) (e : AmortEntry),
      e ∈ amortAux r payment rem m k → e.total_payment = payment := by
  intro k
  induction k with
  | zero => intro rem m e he; cases he
  | succ k ih =>
    intro rem m e he
    rw [amortAux_succ] at he
    rcases List.mem_cons.mp he with h | h
    · rw [h]
    · exact ih _ _ e h

lemma iterBal_succ (r payment rem : ℝ) (k : ℕ) :
    iterBal r payment rem (k + 1) = iterBal r payment (rem - (payment - rem * r)) k := rfl

lemma amortAux_sum_principal (r payment : ℝ) :
    ∀ (k : ℕ) (rem : ℝ) (m : ℕ),
      ((amortAux r payment rem m k).map (fun e => e.principal_payment)).sum =
        rem - iterBal r payment rem k := by
  intro k
  induction k with
  | zero => intro rem m; simp [amortAux, iterBal]
  | succ k ih =>
    intro rem m
    rw [amortAux_succ, List.map_cons, List.sum_cons, ih, iterBal_succ]
    ring

lemma amortAux_getLast (r payment : ℝ) :
    ∀ (k : ℕ) (rem : ℝ) (m : ℕ), k ≠ 0 →
      ∃ e, (amortAux r payment rem m k).getLast? = some e ∧
        e.remaining_principal = iterBal r payment rem k := by
  intro k
  induction k with
  | zero => intro rem m h; exact absurd rfl h
  | succ k ih =>
    intro rem m _
    cases k with
    | zero =>
      exact ⟨_, rfl, rfl⟩
    | succ j =>
      rw [amortAux_succ, amortAux_succ, List.getLast?_cons_cons, ← amortAux_succ,
        iterBal_succ]
      exact ih _ _ (Nat.succ_ne_zero j)

lemma iterBal_closed (r payment : ℝ) (hr : r ≠ 0) :
    ∀ (k : ℕ) (rem : ℝ),
      iterBal r payment rem k = rem * (1 + r) ^ k - payment * ((1 + r) ^ k - 1) / r := by
  intro k
  induction k with
  | zero => intro rem; simp [iterBal]
  | succ k ih =>
    intro rem
    rw [iterBal_succ, ih]
    field_simp
    ring

lemma denom_ne_zero (rate : ℝ) (T : ℕ) (hr : 0 < rate) (hT : 0 < T) :
    (1 + rate / 12) ^ (T * 12) - 1 ≠ 0 := by
  have h1 : (1 : ℝ) < 1 + rate / 12 := by
    have : (0 : ℝ) < rate / 12 := div_pos hr (by norm_num)
    linarith
  have h2 : (1 : ℝ) < (1 + rate / 12) ^ (T * 12) :=
    one_lt_pow₀ h1 (by positivity)
  intro h
  have : (1 + rate / 12) ^ (T * 12) = 1 := by linarith
  linarith [this]

lemma gen_ok (principal rate : ℝ) (T : ℕ)
    (hden : (1 + rate / 12) ^ (T * 12) - 1 ≠ 0) :
    generate_amortization_schedule principal rate T =
      Except.ok (amortSchedule principal rate T) := by
  unfold generate_amortization_schedule
  rw [if_neg hden]

lemma iterBal_payment_zero (P rate : ℝ) (T : ℕ) (hr : 0 < rate)
    (hden : (1 + rate / 12) ^ (T * 12) - 1 ≠ 0) :
    iterBal (rate / 12) (monthly_payment P rate T) P (T * 12) = 0 := by
  have hr12 : rate / 12 ≠ 0 := by positivity
  rw [iterBal_closed _ _ hr12, monthly_payment]
  set A := (1 + rate / 12) ^ (T * 12) with hA
  field_simp
  ring

/-! ## Reduction lemmas for the monadic embedding -/

lemma getAttr_some {α : Type} (v : α) (s : String) : getAttr (some v) s = Except.ok v := rfl

lemma ok_bind {α β : Type} (a : α) (f : α → Except PyError β) :
    (Except.ok a >>= f : Except PyError β) = f a := rfl

lemma pureBind {α β : Type} (a : α) (f : α → Except PyError β) :
    ((pure a : Except PyError α) >>= f) = f a := rfl

lemma mk_aemo_pricing (a : AEMOPricing) (ir : ℝ) (lty : ℕ) (ic : InstallationCosts)
    (mc : MaintenanceCosts) (sr br ppi fpi : ℝ) :
    (mkROICalculator a ir lty ic mc sr br ppi fpi).aemo_pricing = some a := rfl

lemma mk_interest_rate (a : AEMOPricing) (ir : ℝ) (lty : ℕ) (ic : InstallationCosts)
    (mc : MaintenanceCosts) (sr br ppi fpi : ℝ) :
    (mkROICalculator a ir lty ic mc sr br ppi fpi).interest_rate = some ir := rfl

lemma mk_loan_term_years (a : AEMOPricing) (ir : ℝ) (lty : ℕ) (ic : InstallationCosts)
    (mc : MaintenanceCosts) (sr br ppi fpi : ℝ) :
    (mkROICalculator a ir lty ic mc sr br ppi fpi).loan_term_years = some lty := rfl

lemma roiBody_full (a : AEMOPricing) (ir : ℝ) (lty : ℕ) (ic : InstallationCosts)
    (mc : MaintenanceCosts) (sr br ppi fpi : ℝ) (ev : EVPackage) (battery : BatteryPackage)
    (solar : SolarPackage) (usage : UsageProfile) (ls es : List AmortEntry) (month : ℕ) :
    roiBody (mkROICalculator a ir lty ic mc sr br ppi fpi) ev battery solar usage
        ls es month =
      Except.ok (mkRecord mc a ppi fpi ev battery solar usage ls es month) := rfl

lemma install_full (a : AEMOPricing) (ir : ℝ) (lty : ℕ) (ic : InstallationCosts)
    (mc : MaintenanceCosts) (sr br ppi fpi : ℝ) (sc bc : ℝ) :
    ROICalculator.calculate_total_installation_cost
        (mkROICalculator a ir lty ic mc sr br ppi fpi) sc bc =
      Except.ok (installationCostValue ic sr br sc bc) := rfl

lemma gen_replacement (ev : EVPackage) (ir : ℝ) (lty : ℕ)
    (hden : (1 + ir / 12) ^ (lty * 12) - 1 ≠ 0) :
    generate_amortization_schedule
        (ev.base_price - ev.base_price * (1 - ev.depreciation_rate / 100) ^ (5 : ℕ)) ir lty =
      Except.ok (replacementEvSchedule ev ir lty) := gen_ok _ _ _ hden

lemma roi_full_run (a : AEMOPricing) (ir : ℝ) (lty : ℕ) (ic : InstallationCosts)
    (mc : MaintenanceCosts) (sr br ppi fpi : ℝ) (ev : EVPackage) (battery : BatteryPackage)
    (solar : SolarPackage) (usage : UsageProfile) (years : ℕ)
    (hden : (1 + ir / 12) ^ (lty * 12) - 1 ≠ 0) :
    ROICalculator.calculate_detailed_roi (mkROICalculator a ir lty ic mc sr br ppi fpi)
        ev battery solar usage years =
      roiGo (mkROICalculator a ir lty ic mc sr br ppi fpi) ev battery solar usage
        (amortSchedule (battery.base_price + solar.base_price +
          installationCostValue ic sr br solar.capacity battery.capacity) ir lty)
        (5 * 12) 0 (years * 12) (amortSchedule ev.base_price ir lty) := by
  unfold ROICalculator.calculate_detailed_roi
  rw [install_full]
  simp only [ok_bind, mk_interest_rate, mk_loan_term_years, getAttr_some,
    gen_ok _ _ _ hden]

/-- Master characterisation of the month loop on a fully-attributed
calculator: it always succeeds, produces one record per month with the month
index increasing contiguously, and the EV loan schedule in use is the
initial one before the replacement month (60) and the regenerated one from
the replacement month on. -/
lemma roiGo_full (a : AEMOPricing) (ir : ℝ) (lty : ℕ) (ic : InstallationCosts)
    (mc : MaintenanceCosts) (sr br ppi fpi : ℝ) (ev : EVPackage) (battery : BatteryPackage)
    (solar : SolarPackage) (usage : UsageProfile) (loan_schedule : List AmortEntry)
    (hden : (1 + ir / 12) ^ (lty * 12) - 1 ≠ 0) :
    ∀ (k month : ℕ) (ev_sched : List AmortEntry),
      ∃ recs,
        roiGo (mkROICalculator a ir lty ic mc sr br ppi fpi) ev battery solar usage
            loan_schedule 60 month k ev_sched = Except.ok recs ∧
        recs.length = k ∧
        ∀ i (h : i < recs.length),
          recs.get ⟨i, h⟩ =
            mkRecord mc a ppi fpi ev battery solar usage loan_schedule
              (if month ≤ 60 ∧ 60 ≤ month + i then replacementEvSchedule ev ir lty
                else ev_sched)
              (month + i) := by
  intro k
  induction k with
  | zero =>
    intro month ev_sched
    exact ⟨[], rfl, rfl, fun i h => absurd h (Nat.not_lt_zero i)⟩
  | succ k ih =>
    intro month ev_sched
    by_cases h60 : month = 60
    · subst h60
      obtain ⟨recs, hrun, hlen, hget⟩ := ih (60 + 1) (replacementEvSchedule ev ir lty)
      refine ⟨mkRecord mc a ppi fpi ev battery solar usage loan_schedule
          (replacementEvSchedule ev ir lty) 60 :: recs, ?_, ?_, ?_⟩
      · simp only [roiGo, if_true, mk_interest_rate, mk_loan_term_years, getAttr_some,
          ok_bind, gen_replacement ev ir lty hden, roiBody_full, hrun]
        rfl
      · rw [List.length_cons, hlen]
      · intro i h
        match i with
        | 0 =>
          rw [if_pos ⟨Nat.le_refl 60, Nat.le_add_right 60 0⟩, Nat.add_zero]
          rfl
        | Nat.succ i =>
          have h' : i < recs.length := by
            rw [List.length_cons] at h
            exact Nat.lt_of_succ_lt_succ h
          have step : (mkRecord mc a ppi fpi ev battery solar usage loan_schedule
              (replacementEvSchedule ev ir lty) 60 :: recs).get ⟨i + 1, h⟩ =
                recs.get ⟨i, h'⟩ := rfl
          rw [step, hget i h', ite_self,
            if_pos ⟨Nat.le_refl 60, Nat.le_add_right 60 (i + 1)⟩,
            show 60 + 1 + i = 60 + (i + 1) by omega]
    · obtain ⟨recs, hrun, hlen, hget⟩ := ih (month + 1) ev_sched
      refine ⟨mkRecord mc a ppi fpi ev battery solar usage loan_schedule
          ev_sched month :: recs, ?_, ?_, ?_⟩
      · simp only [roiGo]
        rw [if_neg h60]
        simp only [pureBind, roiBody_full, ok_bind, hrun]
        rfl
      · rw [List.length_cons, hlen]
      · intro i h
        match i with
        | 0 =>
          rw [if_neg (by omega), Nat.add_zero]
          rfl
        | Nat.succ i =>
          have h' : i < recs.length := by
            rw [List.length_cons] at h
            exact Nat.lt_of_succ_lt_succ h
          have step : (mkRecord mc a ppi fpi ev battery solar usage loan_schedule
              ev_sched month :: recs).get ⟨i + 1, h⟩ = recs.get ⟨i, h'⟩ := rfl
          rw [step, hget i h', show month + 1 + i = month + (i + 1) by omega]
          by_cases hc : month + 1 ≤ 60 ∧ 60 ≤ month + (i + 1)
          · rw [if_pos hc, if_pos ⟨by omega, hc.2⟩]
          · rw [if_neg hc, if_neg (by omega)]

/-! ## mkRecord projections and waterfall arithmetic -/

lemma mkRecord_month (mc : MaintenanceCosts) (a : AEMOPricing) (ppi fpi : ℝ)
    (ev : EVPackage) (battery : BatteryPackage) (solar : SolarPackage)
    (usage : UsageProfile) (ls es : List AmortEntry) (month : ℕ) :
    (mkRecord mc a ppi fpi ev battery solar usage ls es month).month = month := rfl

lemma mkRecord_ev_loan_payment (mc : MaintenanceCosts) (a : AEMOPricing) (ppi fpi : ℝ)
    (ev : EVPackage) (battery : BatteryPackage) (solar : SolarPackage)
    (usage : UsageProfile) (ls es : List AmortEntry) (month : ℕ) :
    (mkRecord mc a ppi fpi ev battery solar usage ls es month).costs.ev_loan_payment =
      (paymentInfoAt es month).1 := rfl

lemma mkRecord_maintenance_sum (mc : MaintenanceCosts) (a : AEMOPricing) (ppi fpi : ℝ)
    (ev : EVPackage) (battery : BatteryPackage) (solar : SolarPackage)
    (usage : UsageProfile) (ls es : List AmortEntry) (month : ℕ) :
    (mkRecord mc a ppi fpi ev battery solar usage ls es month).costs.maintenance =
      (mkRecord mc a ppi fpi ev battery solar usage ls es month).costs.maintenance_breakdown.ev_maintenance +
      (mkRecord mc a ppi fpi ev battery solar usage ls es month).costs.maintenance_breakdown.solar_maintenance +
      (mkRecord mc a ppi fpi ev battery solar usage ls es month).costs.maintenance_breakdown.battery_maintenance := rfl

lemma mkRecord_net_position (mc : MaintenanceCosts) (a : AEMOPricing) (ppi fpi : ℝ)
    (ev : EVPackage) (battery : BatteryPackage) (solar : SolarPackage)
    (usage : UsageProfile) (ls es : List AmortEntry) (month : ℕ) :
    (mkRecord mc a ppi fpi ev battery solar usage ls es month).net_position =
      ((mkRecord mc a ppi fpi ev battery solar usage ls es month).benefits.arbitrage +
        (mkRecord mc a ppi fpi ev battery solar usage ls es month).benefits.solar_export +
        (mkRecord mc a ppi fpi ev battery solar usage ls es month).benefits.power_savings +
        (mkRecord mc a ppi fpi ev battery solar usage ls es month).benefits.fuel_savings +
        (mkRecord mc a ppi fpi ev battery solar usage ls es month).benefits.v2g_revenue -
        (mkRecord mc a ppi fpi ev battery solar usage ls es month).costs.ev_charging_cost) -
      ((mkRecord mc a ppi fpi ev battery solar usage ls es month).costs.loan_payment +
        (mkRecord mc a ppi fpi ev battery solar usage ls es month).costs.ev_loan_payment +
        (mkRecord mc a ppi fpi ev battery solar usage ls es month).costs.maintenance) := rfl

lemma waterfall_take6 (d : MonthlyRecord) :
    ((waterfallAmounts d).take 6).sum =
      -d.costs.loan_payment + -d.costs.ev_loan_payment + -d.costs.ev_charging_cost +
        -d.costs.maintenance_breakdown.ev_maintenance +
        -d.costs.maintenance_breakdown.solar_maintenance +
        -d.costs.maintenance_breakdown.battery_maintenance := by
  show (_ : ℝ) = _
  norm_num [waterfallAmounts, waterfallInitialAmounts]
  ring

lemma waterfall_drop7 (d : MonthlyRecord) :
    (((waterfallAmounts d).drop 7).take 5).sum =
      d.benefits.arbitrage + d.benefits.solar_export + d.benefits.power_savings +
        d.benefits.fuel_savings + d.benefits.v2g_revenue := by
  show (_ : ℝ) = _
  norm_num [waterfallAmounts, waterfallInitialAmounts]
  ring

lemma waterfall_get6 (d : MonthlyRecord) :
    (waterfallAmounts d).get? 6 = some (((waterfallAmounts d).take 6).sum) := by
  rw [waterfall_take6]
  show some _ = some _
  norm_num [waterfallAmounts, waterfallInitialAmounts]
  ring

lemma waterfall_get12 (d : MonthlyRecord) :
    (waterfallAmounts d).get? 12 = some ((((waterfallAmounts d).drop 7).take 5).sum) := by
  rw [waterfall_drop7]
  show some _ = some _
  norm_num [waterfallAmounts, waterfallInitialAmounts]
  ring

lemma waterfall_get13 (d : MonthlyRecord) :
    (waterfallAmounts d).get? 13 =
      some (((waterfallAmounts d).take 6).sum + (((waterfallAmounts d).drop 7).take 5).sum) := by
  rw [waterfall_take6, waterfall_drop7]
  show some _ = some _
  norm_num [waterfallAmounts, waterfallInitialAmounts]
  ring

/-! # Claim theorems -/

/-! ## Claim C1: zero-rate fallback -/

/-- C1.  The specification requires a straight-line fallback at
`annualRate == 0`, with `schedule(1200, 0, 1)` yielding 12 payments of 100.
The code has no fallback: the payment formula's denominator
`(1 + 0/12)^12 - 1` is zero and `ZeroDivisionError` is raised.  This theorem
evaluates the embedded code at the failing input. -/
theorem C1_zero_rate_division_error :
    generate_amortization_schedule 1200 0 1 = Except.error PyError.zeroDivisionError := by
  unfold generate_amortization_schedule
  rw [if_pos (by norm_num)]

/-! ## Claim C4: amortization completeness -/

/-- C4 counterexample.  The claim quantifies over every rate `r ≥ 0`, but at
`r = 0` the code raises `ZeroDivisionError` and produces no schedule at all,
so the claimed schedule properties fail there. -/
theorem C4_zero_rate_counterexample :
    generate_amortization_schedule 100 0 1 = Except.error PyError.zeroDivisionError := by
  unfold generate_amortization_schedule
  rw [if_pos (by norm_num)]

/-- C4 (amended to strictly positive rates).  For `P ≥ 0`, `r > 0` and a term
of `T > 0` years, the schedule has exactly `T*12` periods, the
`total_payment` field is the same constant in every period, the principal
portions sum exactly to `P` (hence within any tolerance), and the final
period's remaining balance is exactly 0. -/
theorem C4_amortization_completeness (P rate : ℝ) (T : ℕ)
    (hP : 0 ≤ P) (hr : 0 < rate) (hT : 0 < T) :
    ∃ s, generate_amortization_schedule P rate T = Except.ok s ∧
      s.length = T * 12 ∧
      (∀ e ∈ s, e.total_payment = monthly_payment P rate T) ∧
      ((s.map (fun e => e.principal_payment)).sum = P) ∧
      (∃ e, s.getLast? = some e ∧ e.remaining_principal = 0) := by
  have hden := denom_ne_zero rate T hr hT
  refine ⟨amortSchedule P rate T, gen_ok P rate T hden, ?_, ?_, ?_, ?_⟩
  · exact amortAux_length _ _ _ _ _
  · intro e he
    exact amortAux_total_payment _ _ _ _ _ e he
  · rw [amortSchedule, amortAux_sum_principal, iterBal_payment_zero P rate T hr hden]
    ring
  · obtain ⟨e, hlast, hrem⟩ :=
      amortAux_getLast (rate / 12) (monthly_payment P rate T) (T * 12) P 1
        (by positivity)
    exact ⟨e, hlast, by rw [hrem, iterBal_payment_zero P rate T hr hden]⟩

/-- C4 witness: the amended theorem applied at `P = 1200`, `r = 0.05`,
`T = 1` year. -/
theorem C4_witness :
    (0 : ℝ) ≤ 1200 ∧ (0 : ℝ) < 0.05 ∧ 0 < 1 ∧
    (∃ s, generate_amortization_schedule 1200 0.05 1 = Except.ok s ∧
      s.length = 1 * 12 ∧
      (∀ e ∈ s, e.total_payment = monthly_payment 1200 0.05 1) ∧
      ((s.map (fun e => e.principal_payment)).sum = 1200) ∧
      (∃ e, s.getLast? = some e ∧ e.remaining_principal = 0)) :=
  ⟨by norm_num, by norm_num, by norm_num,
    C4_amortization_completeness 1200 0.05 1 (by norm_num) (by norm_num) (by norm_num)⟩

/-! ## Claim C9: spread-model arbitrage -/

/-- C9.  `calculate_arbitrage_potential` equals
`capacity * efficiency * (peak - off_peak) * 30` (one cycle per day); on the
constructed `AEMOPricing` (peak 0.30, off-peak 0.15) with capacity 10 and
efficiency 0.95 it returns 42.75; and zero capacity yields zero. -/
theorem C9_spread_model :
    (∀ (a : AEMOPricing) (battery_capacity efficiency : ℝ),
      calculate_arbitrage_potential a battery_capacity efficiency =
        battery_capacity * efficiency * (a.peak - a.off_peak) * 30) ∧
    calculate_arbitrage_potential aemoInit 10 0.95 = 42.75 ∧
    (∀ (a : AEMOPricing) (efficiency : ℝ),
      calculate_arbitrage_potential a 0 efficiency = 0) := by
  refine ⟨?_, ?_, ?_⟩
  · intro a c e
    unfold calculate_arbitrage_potential
    ring
  · unfold calculate_arbitrage_potential aemoInit
    norm_num
  · intro a e
    unfold calculate_arbitrage_potential
    ring

/-! ## Claim C8: degradation bounds -/

/-- C8 counterexample.  As stated the claim fails: at decay rate 2 (> 0) the
retention factor is not decreasing (`(1-2)^1 = -1 < 1 = (1-2)^2`), and at
`base = 0` the inflated value is constant, not strictly increasing. -/
theorem C8_counterexample :
    retentionFactor 2 1 < retentionFactor 2 2 ∧
      inflatedValue 0 1 0 = inflatedValue 0 1 1 := by
  constructor
  · have h1 : retentionFactor 2 1 = -1 := by
      unfold retentionFactor
      norm_num [Real.rpow_one]
    have h2 : retentionFactor 2 2 = 1 := by
      unfold retentionFactor
      rw [show ((2 : ℝ)) = ((2 : ℕ) : ℝ) by norm_num, Real.rpow_natCast]
      norm_num
    rw [h1, h2]
    norm_num
  · unfold inflatedValue
    norm_num

/-- C8 (amended).  `retentionFactor rate 0 = 1` for any rate;
`retentionFactor 0.03 1 = 0.97` exactly; the factor is strictly decreasing in
elapsed years for decay rates in `(0, 1)` (for rates ≥ 1 the base `1 - rate`
is not in `(0,1)` and monotonicity fails, see the counterexample); and the
inflated value is strictly increasing in elapsed years for `rate > 0` and
`base > 0`. -/
theorem C8_degradation_bounds :
    (∀ rate : ℝ, retentionFactor rate 0 = 1) ∧
    retentionFactor 0.03 1 = 0.97 ∧
    (∀ rate y₁ y₂ : ℝ, 0 < rate → rate < 1 → y₁ < y₂ →
      retentionFactor rate y₂ < retentionFactor rate y₁) ∧
    (∀ base rate y₁ y₂ : ℝ, 0 < base → 0 < rate → y₁ < y₂ →
      inflatedValue base rate y₁ < inflatedValue base rate y₂) := by
  refine ⟨?_, ?_, ?_, ?_⟩
  · intro rate
    unfold retentionFactor
    exact Real.rpow_zero _
  · unfold retentionFactor
    norm_num [Real.rpow_one]
  · intro rate y₁ y₂ h0 h1 hy
    unfold retentionFactor
    exact Real.rpow_lt_rpow_of_exponent_gt (by linarith) (by linarith) hy
  · intro base rate y₁ y₂ hb h0 hy
    unfold inflatedValue
    exact mul_lt_mul_of_pos_left
      (Real.rpow_lt_rpow_of_exponent_lt (by linarith) hy) hb

/-- C8 witness: the amended theorem applied at concrete inputs
(rate 0.5 ∈ (0,1), years 1 < 2; base 3 > 0). -/
theorem C8_witness :
    retentionFactor 0.5 0 = 1 ∧
    ((0 : ℝ) < 0.5 ∧ (0.5 : ℝ) < 1 ∧ (1 : ℝ) < 2 ∧
      retentionFactor 0.5 2 < retentionFactor 0.5 1) ∧
    ((0 : ℝ) < 3 ∧ (0 : ℝ) < 0.5 ∧
      inflatedValue 3 0.5 1 < inflatedValue 3 0.5 2) :=
  ⟨C8_degradation_bounds.1 0.5,
    ⟨by norm_num, by norm_num, by norm_num,
      C8_degradation_bounds.2.2.1 0.5 1 2 (by norm_num) (by norm_num) (by norm_num)⟩,
    ⟨by norm_num, by norm_num,
      C8_degradation_bounds.2.2.2 3 0.5 1 2 (by norm_num) (by norm_num) (by norm_num)⟩⟩

/-! ## Claim C2: the constructor stores nothing but ice_vehicle/tax_benefits -/

/-- C2.  `__init__` discards all nine configuration arguments (two different
argument lists produce identical objects), stores only `ice_vehicle` and
`tax_benefits`, and every call of `calculate_detailed_roi` on such an
instance raises `AttributeError` on `self.installation_costs` — the first
attribute read — before any `MonthlyRecord` is produced. -/
theorem C2_init_discards_args (a : AEMOPricing) (ir : ℝ) (lty : ℕ)
    (ic : InstallationCosts) (mc : MaintenanceCosts) (sr br ppi fpi : ℝ)
    (a2 : AEMOPricing) (ir2 : ℝ) (lty2 : ℕ) (ic2 : InstallationCosts)
    (mc2 : MaintenanceCosts) (sr2 br2 ppi2 fpi2 : ℝ)
    (ev : EVPackage) (battery : BatteryPackage) (solar : SolarPackage)
    (usage : UsageProfile) (years : ℕ) :
    ROICalculator_init a ir lty ic mc sr br ppi fpi =
        ROICalculator_init a2 ir2 lty2 ic2 mc2 sr2 br2 ppi2 fpi2 ∧
    (ROICalculator_init a ir lty ic mc sr br ppi fpi).installation_costs = none ∧
    (ROICalculator_init a ir lty ic mc sr br ppi fpi).interest_rate = none ∧
    (ROICalculator_init a ir lty ic mc sr br ppi fpi).loan_term_years = none ∧
    (ROICalculator_init a ir lty ic mc sr br ppi fpi).maintenance_costs = none ∧
    (ROICalculator_init a ir lty ic mc sr br ppi fpi).aemo_pricing = none ∧
    (ROICalculator_init a ir lty ic mc sr br ppi fpi).solar_rebate_per_kw = none ∧
    (ROICalculator_init a ir lty ic mc sr br ppi fpi).battery_rebate = none ∧
    (ROICalculator_init a ir lty ic mc sr br ppi fpi).power_price_inflation = none ∧
    (ROICalculator_init a ir lty ic mc sr br ppi fpi).fuel_price_inflation = none ∧
    (ROICalculator_init a ir lty ic mc sr br ppi fpi).ice_vehicle = some iceVehicleDefault ∧
    (ROICalculator_init a ir lty ic mc sr br ppi fpi).tax_benefits = some taxBenefitsDefault ∧
    ROICalculator.calculate_detailed_roi (ROICalculator_init a ir lty ic mc sr br ppi fpi)
        ev battery solar usage years =
      Except.error (PyError.attributeError "installation_costs") :=
  ⟨rfl, rfl, rfl, rfl, rfl, rfl, rfl, rfl, rfl, rfl, rfl, rfl, rfl⟩

/-! ## Claim C6: simulation length and month contiguity -/

/-- C6.  On a fully-attributed calculator with positive interest rate and
loan term (so that schedule generation succeeds), `calculate_detailed_roi`
returns exactly `years * 12` records whose `month` fields are `0, 1, 2, ...`
in strictly increasing contiguous order. -/
theorem C6_month_contiguity (a : AEMOPricing) (ir : ℝ) (lty : ℕ) (ic : InstallationCosts)
    (mc : MaintenanceCosts) (sr br ppi fpi : ℝ) (ev : EVPackage) (battery : BatteryPackage)
    (solar : SolarPackage) (usage : UsageProfile) (years : ℕ)
    (hir : 0 < ir) (hlty : 0 < lty) :
    ∃ recs,
      ROICalculator.calculate_detailed_roi (mkROICalculator a ir lty ic mc sr br ppi fpi)
          ev battery solar usage years = Except.ok recs ∧
      recs.length = years * 12 ∧
      ∀ i (h : i < recs.length), (recs.get ⟨i, h⟩).month = i := by
  have hden := denom_ne_zero ir lty hir hlty
  obtain ⟨recs, hrun, hlen, hget⟩ :=
    roiGo_full a ir lty ic mc sr br ppi fpi ev battery solar usage
      (amortSchedule (battery.base_price + solar.base_price +
        installationCostValue ic sr br solar.capacity battery.capacity) ir lty)
      hden (years * 12) 0 (amortSchedule ev.base_price ir lty)
  refine ⟨recs, ?_, hlen, ?_⟩
  · rw [roi_full_run a ir lty ic mc sr br ppi fpi ev battery solar usage years hden]
    exact hrun
  · intro i h
    rw [hget i h, mkRecord_month, Nat.zero_add]

/-- C6 witness: the theorem applied at a concrete fully-attributed
calculator (the default assumptions of `main()`) over a 10-year horizon. -/
theorem C6_witness :
    (0 : ℝ) < 3.5 ∧ (0 : ℕ) < 10 ∧
    (∃ recs,
      ROICalculator.calculate_detailed_roi
          (mkROICalculator aemoInit 3.5 10 default_installation_costs
            default_maintenance_costs 700 4000 5 5)
          ev_Essential battery_Starter solar_Starter default_usage_profile 10 =
        Except.ok recs ∧
      recs.length = 10 * 12 ∧
      ∀ i (h : i < recs.length), (recs.get ⟨i, h⟩).month = i) :=
  ⟨by norm_num, by norm_num,
    C6_month_contiguity aemoInit 3.5 10 default_installation_costs default_maintenance_costs
      700 4000 5 5 ev_Essential battery_Starter solar_Starter default_usage_profile 10
      (by norm_num) (by norm_num)⟩

/-! ## Claim C7: vehicle replacement at month 60 -/

/-- C7.  In any successful run, every record before month 60 draws its EV
loan payment from the initial schedule (no regeneration), and every record
from month 60 on draws it from the schedule regenerated by the amortization
engine at the replacement boundary, whose principal is the (new) base price
minus the trade-in value `base_price * (1 - depreciation_rate/100)^5`, the
old EV's value depreciated by the retention factor over the 5 elapsed
years. -/
theorem C7_replacement_event (a : AEMOPricing) (ir : ℝ) (lty : ℕ) (ic : InstallationCosts)
    (mc : MaintenanceCosts) (sr br ppi fpi : ℝ) (ev : EVPackage) (battery : BatteryPackage)
    (solar : SolarPackage) (usage : UsageProfile) (years : ℕ)
    (hir : 0 < ir) (hlty : 0 < lty) :
    ∃ recs,
      ROICalculator.calculate_detailed_roi (mkROICalculator a ir lty ic mc sr br ppi fpi)
          ev battery solar usage years = Except.ok recs ∧
      ∀ i (h : i < recs.length),
        (recs.get ⟨i, h⟩).costs.ev_loan_payment =
          (paymentInfoAt
            (if 60 ≤ i then
              amortSchedule
                (ev.base_price - ev.base_price * (1 - ev.depreciation_rate / 100) ^ (5 : ℕ))
                ir lty
            else amortSchedule ev.base_price ir lty) i).1 := by
  have hden := denom_ne_zero ir lty hir hlty
  obtain ⟨recs, hrun, hlen, hget⟩ :=
    roiGo_full a ir lty ic mc sr br ppi fpi ev battery solar usage
      (amortSchedule (battery.base_price + solar.base_price +
        installationCostValue ic sr br solar.capacity battery.capacity) ir lty)
      hden (years * 12) 0 (amortSchedule ev.base_price ir lty)
  refine ⟨recs, ?_, ?_⟩
  · rw [roi_full_run a ir lty ic mc sr br ppi fpi ev battery solar usage years hden]
    exact hrun
  · intro i h
    rw [hget i h, mkRecord_ev_loan_payment, Nat.zero_add]
    simp only [replacementEvSchedule, Nat.zero_le, true_and]

/-- C7 witness: the theorem applied at a concrete fully-attributed
calculator over a 10-year horizon (which crosses the month-60 boundary). -/
theorem C7_witness :
    (0 : ℝ) < 3.5 ∧ (0 : ℕ) < 10 ∧
    (∃ recs,
      ROICalculator.calculate_detailed_roi
          (mkROICalculator aemoInit 3.5 10 default_installation_costs
            default_maintenance_costs 700 4000 5 5)
          ev_Essential battery_Starter solar_Starter default_usage_profile 10 =
        Except.ok recs ∧
      ∀ i (h : i < recs.length),
        (recs.get ⟨i, h⟩).costs.ev_loan_payment =
          (paymentInfoAt
            (if 60 ≤ i then
              amortSchedule
                (ev_Essential.base_price -
                  ev_Essential.base_price *
                    (1 - ev_Essential.depreciation_rate / 100) ^ (5 : ℕ)) 3.5 10
            else amortSchedule ev_Essential.base_price 3.5 10) i).1) :=
  ⟨by norm_num, by norm_num,
    C7_replacement_event aemoInit 3.5 10 default_installation_costs default_maintenance_costs
      700 4000 5 5 ev_Essential battery_Starter solar_Starter default_usage_profile 10
      (by norm_num) (by norm_num)⟩

/-! ## Claim C5: waterfall consistency -/

/-- C5.  For every record produced by a successful simulation run, the
waterfall's cost subtotal (index 6) equals the sum of the six preceding cost
component entries, the benefit subtotal (index 12) equals the sum of the
five preceding benefit component entries, the final entry (index 13) is
their sum, and cost subtotal + benefit subtotal equals the record's
`net_position` — the `ev_charging_cost` entry appears among the waterfall's
cost components while the simulator subtracts it from total benefits, and
the two bookkeeping conventions agree on the net position. -/
theorem C5_waterfall_consistency (a : AEMOPricing) (ir : ℝ) (lty : ℕ)
    (ic : InstallationCosts) (mc : MaintenanceCosts) (sr br ppi fpi : ℝ) (ev : EVPackage)
    (battery : BatteryPackage) (solar : SolarPackage) (usage : UsageProfile) (years : ℕ)
    (hir : 0 < ir) (hlty : 0 < lty) :
    ∃ recs,
      ROICalculator.calculate_detailed_roi (mkROICalculator a ir lty ic mc sr br ppi fpi)
          ev battery solar usage years = Except.ok recs ∧
      ∀ rec ∈ recs,
        (waterfallAmounts rec).get? 6 = some (((waterfallAmounts rec).take 6).sum) ∧
        (waterfallAmounts rec).get? 12 =
          some ((((waterfallAmounts rec).drop 7).take 5).sum) ∧
        (waterfallAmounts rec).get? 13 = some (((waterfallAmounts rec).take 6).sum +
          (((waterfallAmounts rec).drop 7).take 5).sum) ∧
        ((waterfallAmounts rec).take 6).sum + (((waterfallAmounts rec).drop 7).take 5).sum =
          rec.net_position := by
  have hden := denom_ne_zero ir lty hir hlty
  obtain ⟨recs, hrun, hlen, hget⟩ :=
    roiGo_full a ir lty ic mc sr br ppi fpi ev battery solar usage
      (amortSchedule (battery.base_price + solar.base_price +
        installationCostValue ic sr br solar.capacity battery.capacity) ir lty)
      hden (years * 12) 0 (amortSchedule ev.base_price ir lty)
  refine ⟨recs, ?_, ?_⟩
  · rw [roi_full_run a ir lty ic mc sr br ppi fpi ev battery solar usage years hden]
    exact hrun
  · intro rec hmem
    refine ⟨waterfall_get6 rec, waterfall_get12 rec, waterfall_get13 rec, ?_⟩
    obtain ⟨n, hn⟩ := List.mem_iff_get.mp hmem
    rw [← hn, hget n.1 n.2, waterfall_take6, waterfall_drop7, mkRecord_net_position,
      mkRecord_maintenance_sum]
    ring

/-- C5 witness: the theorem applied at a concrete fully-attributed
calculator over a 1-year horizon. -/
theorem C5_witness :
    (0 : ℝ) < 3.5 ∧ (0 : ℕ) < 10 ∧
    (∃ recs,
      ROICalculator.calculate_detailed_roi
          (mkROICalculator aemoInit 3.5 10 default_installation_costs
            default_maintenance_costs 700 4000 5 5)
          ev_Essential battery_Starter solar_Starter default_usage_profile 1 =
        Except.ok recs ∧
      ∀ rec ∈ recs,
        (waterfallAmounts rec).get? 6 = some (((waterfallAmounts rec).take 6).sum) ∧
        (waterfallAmounts rec).get? 12 =
          some ((((waterfallAmounts rec).drop 7).take 5).sum) ∧
        (waterfallAmounts rec).get? 13 = some (((waterfallAmounts rec).take 6).sum +
          (((waterfallAmounts rec).drop 7).take 5).sum) ∧
        ((waterfallAmounts rec).take 6).sum + (((waterfallAmounts rec).drop 7).take 5).sum =
          rec.net_position) :=
  ⟨by norm_num, by norm_num,
    C5_waterfall_consistency aemoInit 3.5 10 default_installation_costs
      default_maintenance_costs 700 4000 5 5 ev_Essential battery_Starter solar_Starter
      default_usage_profile 1 (by norm_num) (by norm_num)⟩

/-! ## Claim C3: configuration errors -/

/-- C3 counterexample.  A negative battery capacity does not raise a
configuration error before the month loop: the simulator accepts it and the
run succeeds (returns `ok`), producing records as if the input were valid. -/
theorem C3_counterexample :
    (ROICalculator.calculate_detailed_roi
        (mkROICalculator aemoInit 3.5 10 default_installation_costs
          default_maintenance_costs 700 4000 5 5)
        ev_Essential negCapacityBattery solar_Starter default_usage_profile 10).isOk = true := by
  have hden := denom_ne_zero 3.5 10 (by norm_num) (by norm_num)
  obtain ⟨recs, hrun, -, -⟩ :=
    roiGo_full aemoInit 3.5 10 default_installation_costs default_maintenance_costs 700 4000
      5 5 ev_Essential negCapacityBattery solar_Starter default_usage_profile
      (amortSchedule (negCapacityBattery.base_price + solar_Starter.base_price +
        installationCostValue default_installation_costs 700 4000 solar_Starter.capacity
          negCapacityBattery.capacity) 3.5 10)
      hden (10 * 12) 0 (amortSchedule ev_Essential.base_price 3.5 10)
  rw [roi_full_run aemoInit 3.5 10 default_installation_costs default_maintenance_costs
    700 4000 5 5 ev_Essential negCapacityBattery solar_Starter default_usage_profile 10 hden,
    hrun]
  rfl

/-- C3 (amended).  The simulator performs no input validation at all: with a
fully-attributed calculator and a well-formed loan configuration, a negative
capacity, negative price or zero horizon raises no configuration error —
the run still returns a complete sequence of `years * 12` records (empty
for a zero horizon); and on instances built by the actual `__init__`, every
call fails with an `AttributeError` before the loop (claim C2), so no
partial sequence is ever returned in either case. -/
theorem C3_no_validation (a : AEMOPricing) (ir : ℝ) (lty : ℕ) (ic : InstallationCosts)
    (mc : MaintenanceCosts) (sr br ppi fpi : ℝ) (ev : EVPackage) (battery : BatteryPackage)
    (solar : SolarPackage) (usage : UsageProfile) (years : ℕ)
    (hir : 0 < ir) (hlty : 0 < lty)
    (hbad : battery.capacity < 0 ∨ solar.capacity < 0 ∨ usage.power_bill < 0 ∨ years = 0) :
    ∃ recs,
      ROICalculator.calculate_detailed_roi (mkROICalculator a ir lty ic mc sr br ppi fpi)
          ev battery solar usage years = Except.ok recs ∧
      recs.length = years * 12 := by
  have hden := denom_ne_zero ir lty hir hlty
  obtain ⟨recs, hrun, hlen, -⟩ :=
    roiGo_full a ir lty ic mc sr br ppi fpi ev battery solar usage
      (amortSchedule (battery.base_price + solar.base_price +
        installationCostValue ic sr br solar.capacity battery.capacity) ir lty)
      hden (years * 12) 0 (amortSchedule ev.base_price ir lty)
  refine ⟨recs, ?_, hlen⟩
  rw [roi_full_run a ir lty ic mc sr br ppi fpi ev battery solar usage years hden]
  exact hrun

/-- C3 witness: the amended theorem applied at a battery package with
negative capacity. -/
theorem C3_witness :
    (0 : ℝ) < 3.5 ∧ (0 : ℕ) < 10 ∧
    (negCapacityBattery.capacity < 0 ∨ solar_Starter.capacity < 0 ∨
      default_usage_profile.power_bill < 0 ∨ 10 = 0) ∧
    (∃ recs,
      ROICalculator.calculate_detailed_roi
          (mkROICalculator aemoInit 3.5 10 default_installation_costs
            default_maintenance_costs 700 4000 5 5)
          ev_Essential negCapacityBattery solar_Starter default_usage_profile 10 =
        Except.ok recs ∧
      recs.length = 10 * 12) :=
  ⟨by norm_num, by norm_num, Or.inl (by norm_num [negCapacityBattery]),
    C3_no_validation aemoInit 3.5 10 default_installation_costs default_maintenance_costs
      700 4000 5 5 ev_Essential negCapacityBattery solar_Starter default_usage_profile 10
      (by norm_num) (by norm_num) (Or.inl (by norm_num [negCapacityBattery]))⟩

/-! ## Claim C10: determinism -/

/-- C10.  The simulator is deterministic: the embedding of
`calculate_detailed_roi` is a pure function of the calculator state, package
specs, usage profile and horizon (no randomness or wall-clock dependence
appears anywhere in the source), so identical inputs give identical
record sequences. -/
theorem C10_determinism (self self2 : ROICalculator) (ev ev2 : EVPackage)
    (battery battery2 : BatteryPackage) (solar solar2 : SolarPackage)
    (usage usage2 : UsageProfile) (years years2 : ℕ)
    (h1 : self = self2) (h2 : ev = ev2) (h3 : battery = battery2) (h4 : solar = solar2)
    (h5 : usage = usage2) (h6 : years = years2) :
    ROICalculator.calculate_detailed_roi self ev battery solar usage years =
      ROICalculator.calculate_detailed_roi self2 ev2 battery2 solar2 usage2 years2 := by
  rw [h1, h2, h3, h4, h5, h6]

/-- C10 witness: two calls with identical concrete inputs agree. -/
theorem C10_witness :
    ROICalculator.calculate_detailed_roi
        (mkROICalculator aemoInit 3.5 10 default_installation_costs
          default_maintenance_costs 700 4000 5 5)
        ev_Essential battery_Starter solar_Starter default_usage_profile 10 =
      ROICalculator.calculate_detailed_roi
        (mkROICalculator aemoInit 3.5 10 default_installation_costs
          default_maintenance_costs 700 4000 5 5)
        ev_Essential battery_Starter solar_Starter default_usage_profile 10 :=
  C10_determinism _ _ _ _ _ _ _ _ _ _ _ _ rfl rfl rfl rfl rfl rfl
